import Mathlib

/-!
Verification of the live event ingestion and classification pipeline of the
umbrel-nostr-relay dashboard (`src/App.js`).

The browser runtime is embedded shallowly:

* `JsonValue` models the result of a successful `JSON.parse` call on a
  textual frame.  The message handler receives `Option JsonValue`, where
  `none` models a frame whose text is not valid JSON (in the browser,
  `JSON.parse` throws a SyntaxError in that case, which the handler does not
  catch).
* JavaScript property access and truthiness are modelled by `jsLength`,
  `jsIndex`, `jsGetField` and `truthy`: accessing a property of `null`
  throws a TypeError; `.length` of an array or string is its length, of a
  plain object it is the `length` field if present, and of a number or
  boolean it is `undefined` (modelled by `Option.none`).
* React state (`events`, `isConnected`, `hasFetchedAllEvents`,
  `relayInformationDocument`) is the record `AppState`; each socket callback
  becomes a function from state to state, returning in addition the frames
  it sends, and faults escaping a handler are `Except.error`.
-/

/-- A JSON value as produced by a successful `JSON.parse`. -/
inductive JsonValue where
  | null : JsonValue
  | bool (b : Bool) : JsonValue
  | num (n : Int) : JsonValue
  | str (s : String) : JsonValue
  | arr (elems : List JsonValue) : JsonValue
  | obj (fields : List (String × JsonValue)) : JsonValue

/-- Whether a JSON value is the `null` literal. -/
def JsonValue.isNull : JsonValue → Bool
  | JsonValue.null => true
  | _ => false

/-- A fault escaping a handler: `parseError` models the SyntaxError thrown by
`JSON.parse` on invalid text, `typeError` the TypeError thrown by property
access or destructuring on `null`/`undefined`. -/
inductive JsFault where
  | parseError : JsFault
  | typeError : JsFault
deriving DecidableEq

/-- JavaScript truthiness of a value that may be `undefined` (`none`). -/
def truthy : Option JsonValue → Bool
  | none => false
  | some JsonValue.null => false
  | some (JsonValue.bool b) => b
  | some (JsonValue.num n) => n != 0
  | some (JsonValue.str s) => s != ""
  | some (JsonValue.arr _) => true
  | some (JsonValue.obj _) => true

/-- The JavaScript expression `data.length`: throws a TypeError on `null`,
is the element count of an array, the character count of a string, the
`length` field of an object if present, and `undefined` otherwise. -/
def jsLength : JsonValue → Except JsFault (Option JsonValue)
  | JsonValue.null => Except.error JsFault.typeError
  | JsonValue.arr elems => Except.ok (some (JsonValue.num elems.length))
  | JsonValue.str s => Except.ok (some (JsonValue.num s.length))
  | JsonValue.obj fields => Except.ok (List.lookup ("length") fields)
  | _ => Except.ok none

/-- The JavaScript expression `data[i]` for a non-null value: element `i`
of an array, character `i` of a string, the field named `i` of an object,
and `undefined` otherwise. -/
def jsIndex : JsonValue → Nat → Option JsonValue
  | JsonValue.arr elems, i => elems.get? i
  | JsonValue.str s, i => (s.toList.get? i).map (fun c => JsonValue.str (String.singleton c))
  | JsonValue.obj fields, i => List.lookup (toString i) fields
  | _, _ => none

/-- Field access on a value: a named field of an object, `undefined` for
anything else (destructuring a primitive boxes it and finds no such field). -/
def jsGetField (v : JsonValue) (k : String) : Option JsonValue :=
  match v with
  | JsonValue.obj fields => List.lookup k fields
  | _ => none

/-- Strict equality `x === s` of a possibly-undefined value with a string
literal. -/
def jsStrictEqStr : Option JsonValue → String → Bool
  | some (JsonValue.str s), t => s == t
  | _, _ => false

/-- The normalized record extracted from an EVENT payload by
`const { id, kind, created_at, content } = data[2]`.  A missing field is
`undefined`, modelled by `none`. -/
structure RelayEvent where
  id : Option JsonValue
  kind : Option JsonValue
  created_at : Option JsonValue
  content : Option JsonValue

/-- Extraction of the four destructured fields from an EVENT payload. -/
def extractEvent (v : JsonValue) : RelayEvent :=
  { id := jsGetField v ("id")
    kind := jsGetField v ("kind")
    created_at := jsGetField v ("created_at")
    content := jsGetField v ("content") }

/-- The React state of `App`: the event list, the connection flag, the
end-of-stored-events flag and the NIP-11 relay information document. -/
structure AppState where
  events : List RelayEvent
  isConnected : Bool
  hasFetchedAllEvents : Bool
  relayInformationDocument : JsonValue

/-- The initial state set by the `useState` initializers: empty event list,
not connected, not all events fetched, empty relay information document. -/
def initialState : AppState :=
  { events := []
    isConnected := false
    hasFetchedAllEvents := false
    relayInformationDocument := JsonValue.obj [] }

/-- The outbound subscribe frame `["REQ", subscriptionID, { limit: 1000 }]`
sent by `socket.onopen`. -/
def reqFrame (subscriptionID : String) : JsonValue :=
  JsonValue.arr
    [JsonValue.str ("REQ"), JsonValue.str subscriptionID,
      JsonValue.obj [(("limit"), JsonValue.num 1000)]]

/-- The outbound unsubscribe frame `["CLOSE", subscriptionID]` sent by the
cleanup function. -/
def closeFrame (subscriptionID : String) : JsonValue :=
  JsonValue.arr [JsonValue.str ("CLOSE"), JsonValue.str subscriptionID]

/-- `socket.onopen`: sets `isConnected` to true, resets the event list to
empty, and sends the single subscribe frame.  Returns the new state and the
list of frames sent. -/
def onopen (st : AppState) (subscriptionID : String) : AppState × List JsonValue :=
  ({ st with isConnected := true, events := [] }, [reqFrame subscriptionID])

/-- `socket.onmessage`: the handler body applied to the result of
`JSON.parse(message.data)` (`none` when parsing threw).  Returns the state
after the handler, or the fault that escaped it. -/
def onmessage (st : AppState) (parsed : Option JsonValue) : Except JsFault AppState :=
  match parsed with
  | none => Except.error JsFault.parseError
  | some data =>
    match jsLength data with
    | Except.error f => Except.error f
    | Except.ok len =>
      if truthy len = false then
        Except.ok st
      else if jsStrictEqStr (jsIndex data 0) ("EOSE") then
        Except.ok { st with hasFetchedAllEvents := true }
      else if jsStrictEqStr (jsIndex data 0) ("EVENT") then
        match jsIndex data 2 with
        | none => Except.error JsFault.typeError
        | some v =>
          if v.isNull then Except.error JsFault.typeError
          else Except.ok { st with events := extractEvent v :: st.events }
      else
        Except.ok st

/-- Serial delivery of a list of inbound frames to `socket.onmessage`:
frames are processed in arrival order; a fault escaping the handler leaves
the state as it was and later frames are still delivered (the browser keeps
dispatching message events after an uncaught handler error). -/
def processFrames : AppState → List (Option JsonValue) → AppState
  | st, [] => st
  | st, f :: fs =>
    processFrames
      (match onmessage st f with
        | Except.ok st' => st'
        | Except.error _ => st) fs

/-- `socket.onerror`: sets `isConnected` to false. -/
def onerror (st : AppState) : AppState :=
  { st with isConnected := false }

/-- `socket.onclose`: sets `isConnected` to false. -/
def onclose (st : AppState) : AppState :=
  { st with isConnected := false }

/-- The `WebSocket.readyState` constants. -/
inductive ReadyState where
  | CONNECTING : ReadyState
  | OPEN : ReadyState
  | CLOSING : ReadyState
  | CLOSED : ReadyState
deriving DecidableEq

/-- What the cleanup function did: the frames it sent and whether it called
`socket.close()`. -/
structure CleanupEffects where
  sent : List JsonValue
  socketClosed : Bool

/-- The `useEffect` cleanup function: if and only if the socket is OPEN it
sends the unsubscribe frame and closes the socket; otherwise it does
nothing. -/
def cleanup (readyState : ReadyState) (subscriptionID : String) : CleanupEffects :=
  if readyState = ReadyState.OPEN then
    { sent := [closeFrame subscriptionID], socketClosed := true }
  else
    { sent := [], socketClosed := false }

/-- A display descriptor for an event kind: icon, label, whether the UI
renders the content, and which field of a structured content to show.
An absent `showContent` key in the source is falsy, modelled as `false`;
an absent `contentKey` is `none`. -/
structure EventKindDescriptor where
  icon : String
  name : String
  showContent : Bool := false
  contentKey : Option String := none
deriving DecidableEq

/-- The `supportedEventKinds` table from the source, numeric keys only, in
source order. -/
def supportedEventKinds : List (Int × EventKindDescriptor) :=
  [(0, { icon := ("📝"), name := ("Profile Update") }),
   (1, { icon := ("💭"), name := ("Post"), showContent := true }),
   (2, { icon := ("📶"), name := ("Relay Update") }),
   (3, { icon := ("🤝"), name := ("Following Update") }),
   (4, { icon := ("🔏"), name := ("Encrypted DM") }),
   (5, { icon := ("🗑"), name := ("Deleted Action") }),
   (6, { icon := ("🔁"), name := ("Repost") }),
   (7, { icon := ("🤙"), name := ("Reaction") }),
   (40, { icon := ("🧙‍♂️"), name := ("Channel Creation"), showContent := true,
          contentKey := some ("name") }),
   (41, { icon := ("🪄"), name := ("Channel Update"), showContent := true,
          contentKey := some ("name") }),
   (42, { icon := ("📢"), name := ("Channel Message"), showContent := true }),
   (43, { icon := ("🙈"), name := ("Hid Message") }),
   (44, { icon := ("🙊"), name := ("Muted User") }),
   (22242, { icon := ("🔓"), name := ("Authenticated Relay") })]

/-- The `other` entry of the `supportedEventKinds` table: the generic
fallback descriptor. -/
def otherEventKind : EventKindDescriptor :=
  { icon := ("🛠"), name := ("Other Action") }

/-- Modelled from the spec: the classifier applied at render time by the
presentation components (whose code is not under `src/`) — an exact-match
lookup of the numeric kind in the `supportedEventKinds` table, falling back
to the `other` descriptor for any kind not present. -/
def classify (kind : Int) : EventKindDescriptor :=
  (List.lookup kind supportedEventKinds).getD otherEventKind

/-- The 14 kinds given a dedicated entry in the table. -/
def documentedKinds : List Int :=
  [0, 1, 2, 3, 4, 5, 6, 7, 40, 41, 42, 43, 44, 22242]

/-- An HTTP request as issued by `fetch`: method and headers. -/
structure HttpRequest where
  method : String
  headers : List (String × String)
deriving DecidableEq

/-- The one metadata request issued on mount:
`GET` with header `Accept: application/nostr+json`. -/
def relayInfoRequest : HttpRequest :=
  { method := ("GET"), headers := [(("Accept"), ("application/nostr+json"))] }

/-- The HTTP requests issued by the mount effect: exactly the one metadata
fetch. -/
def httpRequestsOnMount : List HttpRequest :=
  [relayInfoRequest]

/-- An HTTP response: status code and the parsed JSON body. -/
structure HttpResponse where
  status : Nat
  body : JsonValue

/-- `response.ok`: status in the inclusive range 200–299. -/
def responseOk (r : HttpResponse) : Bool :=
  200 ≤ r.status && r.status ≤ 299

/-- The outcome of the metadata fetch: a network error rejects the promise
(the then-callback never runs), otherwise the callback receives a
response. -/
inductive FetchResult where
  | networkError : FetchResult
  | response (r : HttpResponse) : FetchResult

/-- The fetch continuation: publishes the parsed body as the relay
information document exactly when `response.ok` holds; otherwise the state
is untouched (and no retry is issued). -/
def handleFetchResult (st : AppState) (res : FetchResult) : AppState :=
  match res with
  | FetchResult.networkError => st
  | FetchResult.response r =>
    if responseOk r then { st with relayInformationDocument := r.body } else st

/-- The well-formed EVENT frame `["EVENT", subscriptionID, payload]`. -/
def eventFrame (subscriptionID : String) (payload : JsonValue) : JsonValue :=
  JsonValue.arr [JsonValue.str ("EVENT"), JsonValue.str subscriptionID, payload]

/-- A sample event payload with id `a`. -/
def sampleEventA : JsonValue :=
  JsonValue.obj
    [(("id"), JsonValue.str ("a")), (("kind"), JsonValue.num 1),
     (("created_at"), JsonValue.num 100), (("content"), JsonValue.str ("hi"))]

/-- A second sample event payload sharing id `a` but with different
content, to exercise duplicate-id delivery. -/
def sampleEventA2 : JsonValue :=
  JsonValue.obj
    [(("id"), JsonValue.str ("a")), (("kind"), JsonValue.num 1),
     (("created_at"), JsonValue.num 101), (("content"), JsonValue.str ("bye"))]

/-- Helper: assoc-list lookup misses when no key of the list equals the
query. -/
theorem lookup_eq_none_of_forall {β : Type} (l : List (Int × β)) (k : Int)
    (h : ∀ p ∈ l, p.1 ≠ k) : List.lookup k l = none := by
  induction l with
  | nil => rfl
  | cons p t ih =>
    obtain ⟨a, b⟩ := p
    have h1 : a ≠ k := h (a, b) (List.mem_cons_self _ _)
    have h2 : ∀ q ∈ t, q.1 ≠ k := fun q hq => h q (List.mem_cons_of_mem _ hq)
    have hb : (k == a) = false := beq_eq_false_iff_ne.mpr (Ne.symm h1)
    simp [List.lookup_cons, hb, ih h2]

/-- Helper: the handler on a well-formed EVENT frame with a non-null
payload prepends the extracted record. -/
theorem onmessage_eventFrame (st : AppState) (sub : String) (v : JsonValue)
    (h : v.isNull = false) :
    onmessage st (some (eventFrame sub v)) =
      Except.ok { st with events := extractEvent v :: st.events } := by
  simp [onmessage, eventFrame, jsLength, truthy, jsIndex, jsStrictEqStr, h]

/-- Helper: the handler on any EOSE-tagged array frame sets the
end-of-stored-events flag and changes nothing else. -/
theorem onmessage_eoseFrame (st : AppState) (rest : List JsonValue) :
    onmessage st (some (JsonValue.arr (JsonValue.str ("EOSE") :: rest))) =
      Except.ok { st with hasFetchedAllEvents := true } := by
  simp [onmessage, jsLength, truthy, jsIndex, jsStrictEqStr]
  intro h
  omega

/-- C6: the frame parsing to the empty array is dropped: the handler
returns with the state unchanged (event list and flags intact), and
delivery of subsequent frames proceeds as if it had never arrived. -/
theorem empty_frame_dropped (st : AppState) (fs : List (Option JsonValue)) :
    onmessage st (some (JsonValue.arr [])) = Except.ok st ∧
    processFrames st (some (JsonValue.arr []) :: fs) = processFrames st fs :=
  ⟨rfl, rfl⟩

/-- C9: an EVENT-tagged array frame with fewer than three elements makes
the handler throw a TypeError while destructuring `data[2]` instead of
logging and dropping the frame. -/
theorem short_event_frame_throws (st : AppState) :
    onmessage st
        (some (JsonValue.arr [JsonValue.str ("EVENT"), JsonValue.str ("sub1")])) =
      Except.error JsFault.typeError :=
  rfl

/-- C10: the error handler and the close handler each set `isConnected` to
false and leave the event list, the end-of-stored-events flag and the relay
information document unchanged. -/
theorem error_close_only_connection_flag (st : AppState) :
    (onerror st).isConnected = false ∧
    (onerror st).events = st.events ∧
    (onerror st).hasFetchedAllEvents = st.hasFetchedAllEvents ∧
    (onerror st).relayInformationDocument = st.relayInformationDocument ∧
    (onclose st).isConnected = false ∧
    (onclose st).events = st.events ∧
    (onclose st).hasFetchedAllEvents = st.hasFetchedAllEvents ∧
    (onclose st).relayInformationDocument = st.relayInformationDocument :=
  ⟨rfl, rfl, rfl, rfl, rfl, rfl, rfl, rfl⟩

/-- C2 counterexample: the open handler does not reset
`hasFetchedAllEvents` to false — starting from a state where the flag is
true, it is still true after the handler runs. -/
theorem onopen_keeps_flag :
    ¬ ((onopen { initialState with hasFetchedAllEvents := true }
          ("sub1")).1.hasFetchedAllEvents = false) := by
  decide

/-- C2 (amended): the open handler resets the event list to empty, sets
`isConnected` to true, sends exactly one subscribe frame
`["REQ", subscriptionID, limit 1000]`, and leaves `hasFetchedAllEvents`
and the relay information document unchanged. -/
theorem onopen_effects (st : AppState) (sub : String) :
    onopen st sub =
      ({ st with isConnected := true, events := [] }, [reqFrame sub]) ∧
    reqFrame sub =
      JsonValue.arr
        [JsonValue.str ("REQ"), JsonValue.str sub,
          JsonValue.obj [(("limit"), JsonValue.num 1000)]] ∧
    (onopen st sub).1.hasFetchedAllEvents = st.hasFetchedAllEvents ∧
    (onopen st sub).1.relayInformationDocument = st.relayInformationDocument :=
  ⟨rfl, rfl, rfl, rfl⟩

/-- C3 counterexample: teardown while the socket is not open (here still
CONNECTING) does not close the connection — the cleanup does nothing. -/
theorem cleanup_not_open_does_not_close :
    ¬ ((cleanup ReadyState.CONNECTING ("sub1")).socketClosed = true) := by
  decide

/-- C3 (amended): teardown while the socket is open sends exactly one
unsubscribe frame `["CLOSE", subscriptionID]` and closes the socket;
teardown while not open sends zero frames and does not close the socket,
and neither case faults. -/
theorem cleanup_effects (rs : ReadyState) (sub : String) :
    (rs = ReadyState.OPEN →
      cleanup rs sub = { sent := [closeFrame sub], socketClosed := true }) ∧
    (rs ≠ ReadyState.OPEN →
      cleanup rs sub = { sent := [], socketClosed := false }) := by
  constructor
  · intro h
    simp [cleanup, h]
  · intro h
    simp [cleanup, h]

/-- C3 witness: both branches of the amended teardown contract at concrete
inputs. -/
theorem cleanup_effects_witness :
    cleanup ReadyState.OPEN ("s") =
      { sent := [closeFrame ("s")], socketClosed := true } ∧
    cleanup ReadyState.CLOSED ("s") = { sent := [], socketClosed := false } :=
  ⟨(cleanup_effects ReadyState.OPEN ("s")).1 rfl,
   (cleanup_effects ReadyState.CLOSED ("s")).2 (by decide)⟩

/-- C1: delivering any sequence of well-formed EVENT frames (non-null
payloads) leaves the event list equal to the arrival sequence of extracted
records reversed, prepended to whatever was there before: nothing is
dropped, reordered, merged or deduplicated, duplicate ids included. -/
theorem event_sequence_reversed (st : AppState) (sub : String)
    (vs : List JsonValue) (h : vs.all (fun v => !v.isNull) = true) :
    processFrames st (vs.map (fun v => some (eventFrame sub v))) =
      { st with events := (vs.map extractEvent).reverse ++ st.events } := by
  induction vs generalizing st with
  | nil => rfl
  | cons v t ih =>
    simp only [List.all_cons, Bool.and_eq_true, Bool.not_eq_true'] at h
    obtain ⟨hv, ht⟩ := h
    rw [List.map_cons, processFrames, onmessage_eventFrame st sub v hv]
    rw [ih _ (by simpa [List.all_eq_true] using ht)]
    simp [List.append_assoc]

/-- C1 witness: two frames sharing id `a` arrive; both are kept, newest
first. -/
theorem event_sequence_reversed_witness :
    processFrames initialState
        ([sampleEventA, sampleEventA2].map
          (fun v => some (eventFrame ("sub1") v))) =
      { initialState with
          events := [extractEvent sampleEventA2, extractEvent sampleEventA] } :=
  event_sequence_reversed initialState ("sub1") [sampleEventA, sampleEventA2]
    (by rfl)

/-- C5: an EOSE-tagged frame sets `hasFetchedAllEvents` to true and changes
no other state, and repeated delivery of EOSE frames is idempotent: after
the first, a second one leaves the state exactly as it was. -/
theorem eose_sets_flag_idempotent (st : AppState)
    (rest rest2 : List JsonValue) :
    onmessage st (some (JsonValue.arr (JsonValue.str ("EOSE") :: rest))) =
      Except.ok { st with hasFetchedAllEvents := true } ∧
    processFrames st
        [some (JsonValue.arr (JsonValue.str ("EOSE") :: rest)),
         some (JsonValue.arr (JsonValue.str ("EOSE") :: rest2))] =
      { st with hasFetchedAllEvents := true } := by
  refine ⟨onmessage_eoseFrame st rest, ?_⟩
  rw [processFrames, onmessage_eoseFrame st rest]
  rw [processFrames, onmessage_eoseFrame _ rest2]
  rfl

/-- C4 counterexample: a frame whose text is not valid structured data
makes `JSON.parse` throw, and the handler does not catch it — the fault
propagates to the caller instead of being logged and dropped. -/
theorem invalid_text_fault_escapes :
    onmessage initialState none = Except.error JsFault.parseError :=
  rfl

/-- C4 (amended): failures are contained (the handler returns normally,
logging and dropping bad frames) for every frame that parses to a non-null
value, provided an EVENT-tagged frame carries a non-null payload at index
2; a frame whose text fails to parse instead throws out of the handler, as
does a null parse result or an EVENT frame without a usable payload. -/
theorem onmessage_contained (st : AppState) (data : JsonValue)
    (hnull : data.isNull = false)
    (hevent : jsStrictEqStr (jsIndex data 0) ("EVENT") = true →
      ∃ v, jsIndex data 2 = some v ∧ v.isNull = false) :
    ∃ st', onmessage st (some data) = Except.ok st' := by
  obtain ⟨len, hl⟩ : ∃ len, jsLength data = Except.ok len := by
    cases data with
    | null => simp [JsonValue.isNull] at hnull
    | bool b => exact ⟨_, rfl⟩
    | num n => exact ⟨_, rfl⟩
    | str s => exact ⟨_, rfl⟩
    | arr elems => exact ⟨_, rfl⟩
    | obj fields => exact ⟨_, rfl⟩
  simp only [onmessage, hl]
  by_cases ht : truthy len = false
  · exact ⟨st, by simp [ht]⟩
  · by_cases he : jsStrictEqStr (jsIndex data 0) ("EOSE") = true
    · exact ⟨{ st with hasFetchedAllEvents := true }, by simp [ht, he]⟩
    · by_cases hv : jsStrictEqStr (jsIndex data 0) ("EVENT") = true
      · obtain ⟨v, hv2, hvn⟩ := hevent hv
        exact ⟨{ st with events := extractEvent v :: st.events },
          by simp [ht, he, hv, hv2, hvn]⟩
      · exact ⟨st, by simp [ht, he, hv]⟩

/-- C4 witness: a NOTICE-tagged frame (valid structured data, unrecognized
tag) is handled without fault. -/
theorem onmessage_contained_witness :
    ∃ st', onmessage initialState
        (some (JsonValue.arr [JsonValue.str ("NOTICE"), JsonValue.str ("hi")])) =
      Except.ok st' :=
  onmessage_contained initialState
    (JsonValue.arr [JsonValue.str ("NOTICE"), JsonValue.str ("hi")])
    (by decide) (fun h => absurd h (by decide))

/-- C7: classification is total and pure: every integer kind yields a
descriptor; exactly the 14 documented kinds yield a descriptor different
from the generic `other` one, and every other integer yields exactly the
`other` descriptor. -/
theorem classify_total_and_exact (k : Int) :
    (k ∈ documentedKinds → classify k ≠ otherEventKind) ∧
    (k ∉ documentedKinds → classify k = otherEventKind) := by
  constructor
  · intro hk
    fin_cases hk <;> decide
  · intro hk
    have hmap : supportedEventKinds.map Prod.fst = documentedKinds := rfl
    have hkeys : ∀ p ∈ supportedEventKinds, p.1 ≠ k := by
      intro p hp hpk
      have hm : p.1 ∈ supportedEventKinds.map Prod.fst :=
        List.mem_map_of_mem Prod.fst hp
      rw [hmap, hpk] at hm
      exact hk hm
    have hnone := lookup_eq_none_of_forall supportedEventKinds k hkeys
    simp [classify, hnone]

/-- C7 witness: kind 1 is documented and classifies away from the generic
descriptor; kind 8 is undocumented and classifies to it. -/
theorem classify_total_and_exact_witness :
    classify 1 ≠ otherEventKind ∧ classify 8 = otherEventKind :=
  ⟨(classify_total_and_exact 1).1 (by decide),
   (classify_total_and_exact 8).2 (by decide)⟩

/-- C8: the mount effect issues exactly one metadata request, a GET with
header `Accept: application/nostr+json`; the parsed body is published as
the relay information document exactly when the response status is 2xx,
and on a network error or non-2xx status the document keeps its initial
empty-object value, with no further request issued. -/
theorem metadata_fetch (r : HttpResponse) :
    httpRequestsOnMount = [relayInfoRequest] ∧
    relayInfoRequest.method = ("GET") ∧
    relayInfoRequest.headers = [(("Accept"), ("application/nostr+json"))] ∧
    initialState.relayInformationDocument = JsonValue.obj [] ∧
    handleFetchResult initialState FetchResult.networkError = initialState ∧
    (responseOk r = true →
      handleFetchResult initialState (FetchResult.response r) =
        { initialState with relayInformationDocument := r.body }) ∧
    (responseOk r = false →
      handleFetchResult initialState (FetchResult.response r) = initialState) := by
  refine ⟨rfl, rfl, rfl, rfl, rfl, ?_, ?_⟩
  · intro h
    simp [handleFetchResult, h]
  · intro h
    simp [handleFetchResult, h]

/-- C8 witness: a 200 response publishes its body; a 500 response leaves
the initial empty document. -/
theorem metadata_fetch_witness :
    handleFetchResult initialState
        (FetchResult.response
          { status := 200,
            body := JsonValue.obj [(("version"), JsonValue.str ("0.8.9"))] }) =
      { initialState with
          relayInformationDocument :=
            JsonValue.obj [(("version"), JsonValue.str ("0.8.9"))] } ∧
    handleFetchResult initialState
        (FetchResult.response { status := 500, body := JsonValue.obj [] }) =
      initialState :=
  ⟨(metadata_fetch
      { status := 200,
        body := JsonValue.obj [(("version"), JsonValue.str ("0.8.9"))] }).2.2.2.2.2.1
      (by decide),
   (metadata_fetch { status := 500, body := JsonValue.obj [] }).2.2.2.2.2.2
      (by decide)⟩
